import Mathlib

/-!
Verification of the runpod worker in handler.py: a shallow embedding of the
two functions generate_image and handler, together with theorems settling the
behavioural claims about input validation, error surfacing and response
normalisation.  Python dynamic values are modelled by a JSON value type;
Python exceptions are modelled by Except, and the HTTP transport is an
explicit function argument so that stubbed upstream outcomes and call counts
are expressible.
-/

namespace RunpodGemini

/-- A JSON-like value, modelling the Python values that flow through the
handler: None, booleans, integers, strings, lists and dicts (as ordered
association lists, matching insertion order of Python dicts). -/
inductive Json where
  | null : Json
  | bool : Bool → Json
  | num : Int → Json
  | str : String → Json
  | arr : List Json → Json
  | obj : List (String × Json) → Json

/-- First value bound to a key in an association list, as Python dict lookup
(keys of a Python dict are unique, so first match is the match). -/
def lookupKey (kvs : List (String × Json)) (k : String) : Option Json :=
  (kvs.find? (fun kv => kv.1 == k)).map (fun kv => kv.2)

/-- Python truthiness of a value, as used by the sources if-not tests. -/
def Json.truthy : Json → Bool
  | .null => false
  | .bool b => b
  | .num n => !(n == 0)
  | .str s => !(s == "")
  | .arr xs => !xs.isEmpty
  | .obj kvs => !kvs.isEmpty

/-- Python dict get with a default; raises AttributeError when the receiver
is not a dict. -/
def pyGet (j : Json) (k : String) (dflt : Json) : Except String Json :=
  match j with
  | .obj kvs => .ok ((lookupKey kvs k).getD dflt)
  | _ => .error "AttributeError: object has no attribute get"

/-- Containment of a needle list inside a haystack list of characters. -/
def charsContain (needle : List Char) : List Char → Bool
  | [] => needle.isEmpty
  | c :: t => needle.isPrefixOf (c :: t) || charsContain needle t

/-- The Python membership test of a string needle in a value: key membership
for dicts, element equality for lists (a string compares equal only to an
equal string), substring for strings; otherwise a TypeError is raised. -/
def pyInStr (needle : String) (j : Json) : Except String Bool :=
  match j with
  | .obj kvs => .ok (kvs.any (fun kv => kv.1 == needle))
  | .arr xs =>
    .ok (xs.any (fun x => match x with | .str s => s == needle | _ => false))
  | .str s => .ok (charsContain needle.toList s.toList)
  | _ => .error "TypeError: argument is not iterable"

/-- Python subscription by a string key: dict lookup (KeyError when absent);
any other receiver raises a TypeError. -/
def pySubscript (j : Json) (k : String) : Except String Json :=
  match j with
  | .obj kvs =>
    match lookupKey kvs k with
    | some v => .ok v
    | none => .error "KeyError"
  | _ => .error "TypeError: indices must be integers"

/-- Python iteration over a value: a list yields its elements, a dict its
keys, a string its characters; other values raise a TypeError. -/
def pyIter (j : Json) : Except String (List Json) :=
  match j with
  | .arr xs => .ok xs
  | .obj kvs => .ok (kvs.map (fun kv => Json.str kv.1))
  | .str s => .ok (s.toList.map (fun c => Json.str (String.singleton c)))
  | _ => .error "TypeError: object is not iterable"

/-- The IMAGEN_MODELS table of handler.py, mapping the public model names to
the upstream model identifiers. -/
def IMAGEN_MODELS : List (String × String) :=
  [("imagen-4-ultra", "imagen-4.0-generate-preview-06-06"),
   ("imagen-4", "imagen-4.0-generate-preview-06-06"),
   ("imagen-3", "imagen-3.0-generate-002")]

/-- The lookup IMAGEN_MODELS.get of generate_image, defaulting to the
imagen-3 upstream name; an unhashable key (list or dict) raises a TypeError
before the try block of generate_image. -/
def imagenLookup (model : Json) : Except String String :=
  match model with
  | .arr _ => .error "TypeError: unhashable type"
  | .obj _ => .error "TypeError: unhashable type"
  | .str s =>
    .ok (((IMAGEN_MODELS.find? (fun kv => kv.1 == s)).map (fun kv => kv.2)).getD
      "imagen-3.0-generate-002")
  | _ => .ok "imagen-3.0-generate-002"

/-- Truthiness of the GEMINI_API_KEY configuration value: unset or empty is
falsy, matching the if-not test in generate_image. -/
def keyTruthy : Option String → Bool
  | none => false
  | some s => !(s == "")

/-- The sample count validation of handler: the max-min clamp of a number
into the interval from 1 to 4.  A Python bool is an int (True is 1, False
is 0, and both clamp to 1); any other value raises a TypeError in the
comparison, caught by the handler catch-all. -/
def clampSampleCount (sc : Json) : Except String Json :=
  match sc with
  | .num n => .ok (.num (max 1 (min 4 n)))
  | .bool _ => .ok (.num 1)
  | _ => .error "TypeError: comparison not supported"

/-- Equality test of a value against the string imagen-4-ultra, as the
Python equality in the handler (a non-string never compares equal). -/
def isUltra (j : Json) : Bool :=
  match j with
  | .str s => s == "imagen-4-ultra"
  | _ => false

/-- The complete sample count validation step of handler lines 166 to 170:
forced to 1 for the ultra model, otherwise clamped. -/
def sampleStep (model sc0 : Json) : Except String Json :=
  if isUltra model then .ok (.num 1) else clampSampleCount sc0

/-- The list of aspect ratio strings accepted by handler. -/
def validRatios : List String := ["1:1", "3:4", "4:3", "9:16", "16:9"]

/-- Membership of a value in the accepted aspect ratio strings. -/
def aspectAllowed (j : Json) : Bool :=
  match j with
  | .str s => validRatios.contains s
  | _ => false

/-- The aspect ratio validation of handler: any value outside the accepted
strings is silently replaced by the default. -/
def normAspect (j : Json) : Json :=
  if aspectAllowed j then j else .str "1:1"

/-- The list of person generation strings accepted by handler. -/
def validPersonGen : List String := ["dont_allow", "allow_adult", "allow_all"]

/-- Membership of a value in the accepted person generation strings. -/
def personAllowed (j : Json) : Bool :=
  match j with
  | .str s => validPersonGen.contains s
  | _ => false

/-- The person generation validation of handler: any value outside the
accepted strings is silently replaced by the default. -/
def normPerson (j : Json) : Json :=
  if personAllowed j then j else .str "allow_adult"

/-- The outbound HTTP POST request built by generate_image: target URL, the
api key header value and the JSON payload. -/
structure HttpRequest where
  url : String
  apiKeyHeader : String
  payload : Json

/-- The outcome of the single outbound call: an HTTP response carrying a
status code, the raw body text and the result of JSON decoding the body, or
one of the exception families distinguished by the except clauses of
generate_image. -/
inductive HttpOutcome where
  | response : Nat → String → Except String Json → HttpOutcome
  | timeout : HttpOutcome
  | requestError : String → HttpOutcome
  | otherError : String → HttpOutcome

/-- The result dictionary returned by handler, one constructor per distinct
dict shape returned by the source: a bare error, an error with a details
text (non-2xx status), an error with the raw response attached, and the
success dict. -/
inductive GResult where
  | errorOnly : String → GResult
  | errorDetails : String → String → GResult
  | errorResponse : String → Json → GResult
  | success : Json → Json → String → Json → List Json → Nat → GResult

/-- The payload built by generate_image: one instance holding the prompt and
the parameters dict; negativePrompt is added only when truthy. -/
def buildPayload (prompt sample_count aspect person neg : Json) : Json :=
  let base := [("sampleCount", sample_count), ("aspectRatio", aspect),
               ("personGeneration", person)]
  let params := if neg.truthy then base ++ [("negativePrompt", neg)] else base
  Json.obj [("instances", Json.arr [Json.obj [("prompt", prompt)]]),
            ("parameters", Json.obj params)]

/-- The per-prediction image extraction of generate_image lines 96 to 106:
the direct bytesBase64Encoded field is probed first, then the image wrapper
(a dict holding bytesBase64Encoded, or a plain string); at most one image is
contributed per prediction.  Python exceptions raised by the membership test
or the subscription propagate as errors. -/
def processPrediction (p : Json) : Except String (List Json) :=
  match pyInStr "bytesBase64Encoded" p with
  | .error e => .error e
  | .ok true =>
    match pySubscript p "bytesBase64Encoded" with
    | .error e => .error e
    | .ok v => .ok [v]
  | .ok false =>
    match pyInStr "image" p with
    | .error e => .error e
    | .ok true =>
      match pySubscript p "image" with
      | .error e => .error e
      | .ok img =>
        match img with
        | .obj kvs2 =>
          match lookupKey kvs2 "bytesBase64Encoded" with
          | some w => .ok [w]
          | none => .ok []
        | .str s => .ok [.str s]
        | _ => .ok []
    | .ok false => .ok []

/-- The image collection loop of generate_image: predictions are processed
in order and their contributions appended; a raised exception aborts the
loop. -/
def collectImages : List Json → Except String (List Json)
  | [] => .ok []
  | q :: qs =>
    match processPrediction q with
    | .error e => .error e
    | .ok imgs =>
      match collectImages qs with
      | .error e => .error e
      | .ok rest => .ok (imgs ++ rest)

/-- The 200-status branch of generate_image, lines 85 to 122: read the
predictions, fail with the raw response attached when there are none or when
no image can be extracted, and otherwise build the success dict.  Exceptions
raised inside (for a non-dict body or a non-iterable predictions value) are
caught by the generic except clause and become the Unexpected-error text. -/
def parse200 (prompt neg : Json) (model_name : String) (aspect : Json)
    (data : Json) : GResult :=
  match pyGet data "predictions" (.arr []) with
  | .error e => .errorOnly ("Unexpected error: " ++ e)
  | .ok predictions =>
    if predictions.truthy = false then .errorResponse "No images generated" data
    else
      match pyIter predictions with
      | .error e => .errorOnly ("Unexpected error: " ++ e)
      | .ok ps =>
        match collectImages ps with
        | .error e => .errorOnly ("Unexpected error: " ++ e)
        | .ok images =>
          if images.isEmpty then
            .errorResponse "Could not extract images from response" data
          else
            .success prompt neg model_name aspect images images.length

/-- The URL and request object built by generate_image, lines 36 to 56: the
predict endpoint of the resolved upstream model name, the api key header and
the instances-parameters payload. -/
def builtRequest (key : Option String) (model_name : String)
    (prompt sample_count aspect person neg : Json) : HttpRequest :=
  { url := "https://generativelanguage.googleapis.com/v1beta/models/"
      ++ model_name ++ ":predict",
    apiKeyHeader := key.getD "",
    payload := buildPayload prompt sample_count aspect person neg }

/-- The function generate_image of handler.py.  The transport argument
stands for requests.post and yields the upstream outcome for the request it
is given; the returned list records the outbound calls made.  The only
exception escaping this function (as Except.error) is the TypeError of the
model lookup, raised before the try block and before any call. -/
def generate_image (key : Option String) (tr : HttpRequest → HttpOutcome)
    (prompt model sample_count aspect neg person : Json) :
    Except String (GResult × List HttpRequest) :=
  if keyTruthy key = false then
    .ok (.errorOnly "Missing GEMINI_API_KEY environment variable", [])
  else
    match imagenLookup model with
    | .error e => .error e
    | .ok model_name =>
      let req : HttpRequest :=
        builtRequest key model_name prompt sample_count aspect person neg
      match tr req with
      | .timeout => .ok (.errorOnly "Request timeout after 90 seconds", [req])
      | .requestError m => .ok (.errorOnly ("Request failed: " ++ m), [req])
      | .otherError m => .ok (.errorOnly ("Unexpected error: " ++ m), [req])
      | .response status text body =>
        if status ≠ 200 then
          .ok (.errorDetails ("API returned status " ++ toString status) text,
               [req])
        else
          match body with
          | .error m => .ok (.errorOnly ("Request failed: " ++ m), [req])
          | .ok data => .ok (parse200 prompt neg model_name aspect data, [req])

/-- Sequencing of a fallible lookup into the rest of the handler body,
modelling exception propagation inside the try block of handler. -/
def exBind (x : Except String Json)
    (f : Json → Except String (GResult × List HttpRequest)) :
    Except String (GResult × List HttpRequest) :=
  match x with
  | .error e => .error e
  | .ok v => f v

/-- The body of the try block of handler, lines 152 to 198: extract the
input dict, fail fast on a falsy prompt, read the optional parameters with
their defaults, validate them and call generate_image. -/
def handlerBody (key : Option String) (tr : HttpRequest → HttpOutcome)
    (event : Json) : Except String (GResult × List HttpRequest) :=
  exBind (pyGet event "input" (.obj [])) fun input_data =>
  exBind (pyGet input_data "prompt" .null) fun prompt =>
  if prompt.truthy = false then
    .ok (.errorOnly "Missing \x27prompt\x27 in input", [])
  else
  exBind (pyGet input_data "model" (.str "imagen-3")) fun model =>
  exBind (pyGet input_data "sample_count" (.num 1)) fun sc0 =>
  exBind (pyGet input_data "aspect_ratio" (.str "1:1")) fun asp0 =>
  exBind (pyGet input_data "negative_prompt" (.str "")) fun neg =>
  exBind (pyGet input_data "person_generation" (.str "allow_adult")) fun per0 =>
  exBind (sampleStep model sc0) fun sc =>
  generate_image key tr prompt model sc (normAspect asp0) neg (normPerson per0)

/-- The function handler of handler.py: the try body with every escaping
exception converted to the Handler-error result by the catch-all except
clause.  The only escaping exceptions occur before any outbound call, so the
recorded call list is empty on that path. -/
def handler (key : Option String) (tr : HttpRequest → HttpOutcome)
    (event : Json) : GResult × List HttpRequest :=
  match handlerBody key tr event with
  | .ok out => out
  | .error e => (.errorOnly ("Handler error: " ++ e), [])

/-- A stub transport on which every call times out; used to exercise paths
that must not depend on the upstream outcome. -/
def stubTimeout : HttpRequest → HttpOutcome := fun _ => HttpOutcome.timeout

/-- A stub transport answering every call with HTTP 200 and the given
decoded JSON body. -/
def stub200 (b : Json) : HttpRequest → HttpOutcome :=
  fun _ => .response 200 "" (.ok b)

/-- A stub transport answering every call with the given status, raw body
text and decode result. -/
def stubResponse (status : Nat) (text : String) (body : Except String Json) :
    HttpRequest → HttpOutcome :=
  fun _ => .response status text body

/-- The value of a parameter inside the parameters dict of an outbound
request payload. -/
def reqParam (r : HttpRequest) (k : String) : Option Json :=
  match r.payload with
  | .obj kvs =>
    match lookupKey kvs "parameters" with
    | some (.obj ps) => lookupKey ps k
    | _ => none
  | _ => none

/-- The result value rendered as the Python dict the source returns,
key by key. -/
def GResult.toDict : GResult → List (String × Json)
  | .errorOnly m => [("error", .str m)]
  | .errorDetails m d => [("error", .str m), ("details", .str d)]
  | .errorResponse m r => [("error", .str m), ("response", r)]
  | .success p neg m a imgs c =>
      [("success", .bool true), ("prompt", p), ("negative_prompt", neg),
       ("model", .str m), ("aspect_ratio", a), ("images", .arr imgs),
       ("count", .num c)]

/-- Presence of a key in a rendered result dict. -/
def hasKey (d : List (String × Json)) (k : String) : Bool :=
  d.any (fun kv => kv.1 == k)

/-- A result populates the error field when its dict carries the error
key. -/
def GResult.errorShape (r : GResult) : Bool := hasKey r.toDict "error"

/-- A result populates the success fields when its dict carries all of the
prompt, model, aspect_ratio, negative_prompt, images and count keys. -/
def GResult.successShape (r : GResult) : Bool :=
  hasKey r.toDict "prompt" && hasKey r.toDict "model" &&
  hasKey r.toDict "aspect_ratio" && hasKey r.toDict "negative_prompt" &&
  hasKey r.toDict "images" && hasKey r.toDict "count"

/-- A result is of the UnparseableResponse family when it is the error dict
that attaches the raw upstream response. -/
def GResult.isUnparseable : GResult → Bool
  | .errorResponse _ _ => true
  | _ => false

/-- The stubbed 200 body of the round trip property: a predictions list of
two objects carrying the base64 strings AAA and BBB. -/
def c4Body : Json :=
  .obj [("predictions", .arr [.obj [("bytesBase64Encoded", .str "AAA")],
                              .obj [("bytesBase64Encoded", .str "BBB")]])]

/-- Helper: with a truthy key and a resolvable model, generate_image makes
exactly one outbound call, namely the built request, whatever the outcome
of the call. -/
theorem generate_image_log (key : Option String) (tr : HttpRequest → HttpOutcome)
    (prompt model sample_count aspect neg person : Json) (model_name : String)
    (hkey : keyTruthy key = true) (hm : imagenLookup model = .ok model_name) :
    ∃ r, generate_image key tr prompt model sample_count aspect neg person =
      .ok (r, [builtRequest key model_name prompt sample_count aspect person neg]) := by
  unfold generate_image
  rw [hkey, hm]
  simp only [Bool.true_eq_false, if_false]
  cases htr : tr (builtRequest key model_name prompt sample_count aspect person neg) with
  | timeout => exact ⟨_, rfl⟩
  | requestError m => exact ⟨_, rfl⟩
  | otherError m => exact ⟨_, rfl⟩
  | response status text body =>
    by_cases hs : status = 200
    · subst hs
      cases body with
      | error m =>
        exact ⟨.errorOnly ("Request failed: " ++ m), by simp [htr]⟩
      | ok d =>
        exact ⟨parse200 prompt neg model_name aspect d, by simp [htr]⟩
    · exact ⟨.errorDetails ("API returned status " ++ toString status) text,
        by simp [htr, hs]⟩

/-- Helper: the model table lookup never raises on a string key. -/
theorem imagenLookup_str (s : String) : ∃ name, imagenLookup (.str s) = .ok name :=
  ⟨_, rfl⟩

/-- Helper: the sampleCount parameter of a built request is the sample count
it was built from. -/
theorem reqParam_sampleCount (key : Option String) (model_name : String)
    (prompt sc asp per neg : Json) :
    reqParam (builtRequest key model_name prompt sc asp per neg) "sampleCount" =
      some sc := by
  unfold reqParam builtRequest buildPayload
  by_cases h : neg.truthy <;> simp [h, lookupKey, List.find?]

/-- Helper: the aspectRatio parameter of a built request is the aspect value
it was built from. -/
theorem reqParam_aspect (key : Option String) (model_name : String)
    (prompt sc asp per neg : Json) :
    reqParam (builtRequest key model_name prompt sc asp per neg) "aspectRatio" =
      some asp := by
  unfold reqParam builtRequest buildPayload
  by_cases h : neg.truthy <;> simp [h, lookupKey, List.find?]

/-- Helper: the personGeneration parameter of a built request is the person
generation value it was built from. -/
theorem reqParam_person (key : Option String) (model_name : String)
    (prompt sc asp per neg : Json) :
    reqParam (builtRequest key model_name prompt sc asp per neg) "personGeneration" =
      some per := by
  unfold reqParam builtRequest buildPayload
  by_cases h : neg.truthy <;> simp [h, lookupKey, List.find?]

/-- Helper: on a minimal event carrying only a non-empty prompt, with a
truthy key and a stubbed 200 response, the handler result is the parse of
the decoded body with the default parameters. -/
theorem handler_stub200 (k p : String) (b : Json) (hk : k ≠ "") (hp : p ≠ "") :
    (handler (some k) (stub200 b) (.obj [("input", .obj [("prompt", .str p)])])).1 =
      parse200 (.str p) (.str "") "imagen-3.0-generate-002" (.str "1:1") b := by
  simp [handler, handlerBody, exBind, pyGet, lookupKey, List.find?, Json.truthy,
        hp, hk, generate_image, keyTruthy, sampleStep, isUltra, clampSampleCount,
        imagenLookup, IMAGEN_MODELS, normAspect, normPerson, stub200]

/-- Helper: when every prediction contributes no image, the collection loop
returns the empty list without raising. -/
theorem collectImages_all_empty (ps : List Json)
    (h : ∀ q ∈ ps, processPrediction q = .ok []) :
    collectImages ps = .ok [] := by
  induction ps with
  | nil => rfl
  | cons q qs ih =>
    have h1 := h q (List.mem_cons_self q qs)
    have h2 := ih (fun x hx => h x (List.mem_cons_of_mem q hx))
    simp [collectImages, h1, h2]

/-- Helper: the dict membership test agrees with the lookup being
defined. -/
theorem any_eq_lookup_isSome (kvs : List (String × Json)) (k : String) :
    kvs.any (fun kv => kv.1 == k) = (lookupKey kvs k).isSome := by
  induction kvs with
  | nil => rfl
  | cons kv rest ih =>
    cases h : kv.1 == k <;> simp [lookupKey, List.find?, h, ih, lookupKey]

/-- C1: for every job object, every key configuration and every upstream
outcome (any status, any body, any raised transport exception), the handler
returns a well formed result value (this Lean function is total, matching
the catch-all except clause of the source), and in the rendered result dict
exactly one of the error field or the success field family (prompt, model,
aspect_ratio, negative_prompt, images, count) is populated, never both and
never neither. -/
theorem handler_result_exclusive (key : Option String) (tr : HttpRequest → HttpOutcome)
    (event : Json) :
    (((handler key tr event).1.errorShape = true ∧
      (handler key tr event).1.successShape = false) ∨
     ((handler key tr event).1.errorShape = false ∧
      (handler key tr event).1.successShape = true)) := by
  rcases h : (handler key tr event).1 with m | ⟨m, d⟩ | ⟨m, r⟩ | ⟨p, ng, mo, a, i, c⟩ <;>
    first
      | exact Or.inl ⟨rfl, rfl⟩
      | exact Or.inr ⟨rfl, rfl⟩

/-- C2: for every job whose input mapping has no prompt key or an empty
prompt value, the handler returns the MissingPrompt kind error (the exact
source text is Missing prompt in input, with the key quoted) and performs
no outbound HTTP call: the recorded call list is empty. -/
theorem handler_missing_prompt (key : Option String) (tr : HttpRequest → HttpOutcome)
    (evs ivs : List (String × Json))
    (hin : lookupKey evs "input" = some (.obj ivs))
    (hp : lookupKey ivs "prompt" = none ∨ lookupKey ivs "prompt" = some (.str "")) :
    handler key tr (.obj evs) = (.errorOnly "Missing \x27prompt\x27 in input", []) := by
  rcases hp with h | h <;>
    simp [handler, handlerBody, exBind, pyGet, hin, h, Json.truthy]

/-- C2 witness: the missing prompt theorem applied at a concrete job with an
empty input mapping. -/
theorem handler_missing_prompt_case :
    handler none stubTimeout (.obj [("input", .obj [])]) =
      (.errorOnly "Missing \x27prompt\x27 in input", []) :=
  handler_missing_prompt none stubTimeout [("input", .obj [])] [] rfl (Or.inl rfl)

/-- C3 counterexample: a job with a valid prompt but a string sample_count
makes the handler raise a TypeError in the clamp before generate_image is
reached, so with the key unset the result is the Handler-error catch-all
text and not the MissingCredential error, refuting the claim as stated for
that job. -/
theorem handler_credential_typeerror :
    (handler none stubTimeout (.obj [("input", .obj [("prompt", .str "x"),
       ("sample_count", .str "a")])])).1 =
      .errorOnly "Handler error: TypeError: comparison not supported" ∧
    "Handler error: TypeError: comparison not supported" ≠
      "Missing GEMINI_API_KEY environment variable" :=
  ⟨rfl, by decide⟩

/-- C3 amended: for every job with a valid (truthy) prompt whose sample
count validation does not itself raise (the model is the ultra variant or
the sample_count value is a number, a boolean or absent), an unset or empty
API key yields the MissingCredential kind error and the recorded call list
is empty. -/
theorem handler_unset_credential (key : Option String) (tr : HttpRequest → HttpOutcome)
    (evs ivs : List (String × Json)) (jp : Json)
    (hkey : keyTruthy key = false)
    (hin : lookupKey evs "input" = some (.obj ivs))
    (hpr : lookupKey ivs "prompt" = some jp) (hpt : jp.truthy = true)
    (hsc : ∃ j, sampleStep ((lookupKey ivs "model").getD (.str "imagen-3"))
           ((lookupKey ivs "sample_count").getD (.num 1)) = .ok j) :
    handler key tr (.obj evs) =
      (.errorOnly "Missing GEMINI_API_KEY environment variable", []) := by
  obtain ⟨j, hj⟩ := hsc
  simp [handler, handlerBody, exBind, pyGet, hin, hpr, hpt, hj, generate_image, hkey]

/-- C3 witness: the amended credential theorem applied at a concrete job
with a valid prompt and the key unset. -/
theorem handler_unset_credential_case :
    handler none stubTimeout (.obj [("input", .obj [("prompt", .str "x")])]) =
      (.errorOnly "Missing GEMINI_API_KEY environment variable", []) :=
  handler_unset_credential none stubTimeout _ _ (.str "x") rfl rfl rfl rfl ⟨.num 1, rfl⟩

/-- C4: given the stubbed 200 response whose predictions carry the base64
strings AAA and BBB, the handler result is a success whose images are
exactly that ordered pair and whose count is 2, for every non-empty prompt
and non-empty key. -/
theorem handler_roundtrip_images (k p : String) (hk : k ≠ "") (hp : p ≠ "") :
    (handler (some k) (stub200 c4Body)
       (.obj [("input", .obj [("prompt", .str p)])])).1 =
      .success (.str p) (.str "") "imagen-3.0-generate-002" (.str "1:1")
        [.str "AAA", .str "BBB"] 2 := by
  simp [handler, handlerBody, exBind, pyGet, lookupKey, List.find?, Json.truthy,
        hp, hk, generate_image, keyTruthy, sampleStep, isUltra, clampSampleCount,
        imagenLookup, IMAGEN_MODELS, normAspect, normPerson, aspectAllowed,
        personAllowed, validRatios, validPersonGen, builtRequest, buildPayload,
        stub200, parse200, pyIter, collectImages, processPrediction, pyInStr,
        pySubscript, c4Body]

/-- C4 witness: the round trip theorem applied at a concrete prompt and
key. -/
theorem handler_roundtrip_images_case :
    (handler (some "k") (stub200 c4Body)
       (.obj [("input", .obj [("prompt", .str "cat")])])).1 =
      .success (.str "cat") (.str "") "imagen-3.0-generate-002" (.str "1:1")
        [.str "AAA", .str "BBB"] 2 :=
  handler_roundtrip_images "k" "cat" (by decide) (by decide)

/-- C5: for every integer sample_count, the sampleCount placed in the single
outbound payload is the clamp of the input into the interval from 1 to 4
(so values below 1 become 1 and values above 4 become 4), except that the
exact model string imagen-4-ultra forces the value 1 regardless of the
input; the effective value always lies in the interval from 1 to 4. -/
theorem handler_sample_clamped (k p m : String) (n : Int) (tr : HttpRequest → HttpOutcome)
    (hk : k ≠ "") (hp : p ≠ "") :
    ∃ req,
      (handler (some k) tr (.obj [("input", .obj [("prompt", .str p), ("model", .str m),
        ("sample_count", .num n)])])).2 = [req] ∧
      reqParam req "sampleCount" =
        some (.num (if m = "imagen-4-ultra" then 1 else max 1 (min 4 n))) ∧
      1 ≤ (if m = "imagen-4-ultra" then (1 : Int) else max 1 (min 4 n)) ∧
      (if m = "imagen-4-ultra" then (1 : Int) else max 1 (min 4 n)) ≤ 4 := by
  obtain ⟨name, hname⟩ := imagenLookup_str m
  have hkey : keyTruthy (some k) = true := by simp [keyTruthy, hk]
  have hbody : handlerBody (some k) tr
      (.obj [("input", .obj [("prompt", .str p), ("model", .str m), ("sample_count", .num n)])]) =
      generate_image (some k) tr (.str p) (.str m)
        (.num (if m = "imagen-4-ultra" then 1 else max 1 (min 4 n)))
        (.str "1:1") (.str "") (.str "allow_adult") := by
    by_cases hm : m = "imagen-4-ultra" <;>
      simp [handlerBody, exBind, pyGet, lookupKey, List.find?, Json.truthy, hp,
            sampleStep, isUltra, clampSampleCount, hm, normAspect, normPerson,
            aspectAllowed, personAllowed, validRatios, validPersonGen]
  obtain ⟨r, hr⟩ := generate_image_log (some k) tr (.str p) (.str m)
      (.num (if m = "imagen-4-ultra" then 1 else max 1 (min 4 n)))
      (.str "1:1") (.str "") (.str "allow_adult") name hkey hname
  refine ⟨builtRequest (some k) name (.str p)
      (.num (if m = "imagen-4-ultra" then 1 else max 1 (min 4 n)))
      (.str "1:1") (.str "allow_adult") (.str ""), ?_, ?_, ?_, ?_⟩
  · simp [handler, hbody, hr]
  · exact reqParam_sampleCount _ _ _ _ _ _ _
  · rcases eq_or_ne m "imagen-4-ultra" with hm | hm
    · simp [hm]
    · simp [hm]
  · rcases eq_or_ne m "imagen-4-ultra" with hm | hm
    · simp [hm]
    · simp [hm]

/-- C5 witness: the clamp theorem applied at a concrete job with sample
count 99, clamped to 4 in the outbound payload. -/
theorem handler_sample_clamped_case :
    ∃ req,
      (handler (some "k") stubTimeout (.obj [("input", .obj [("prompt", .str "x"),
        ("model", .str "imagen-3"), ("sample_count", .num 99)])])).2 = [req] ∧
      reqParam req "sampleCount" =
        some (.num (if "imagen-3" = "imagen-4-ultra" then 1 else max 1 (min 4 99))) ∧
      1 ≤ (if "imagen-3" = "imagen-4-ultra" then (1 : Int) else max 1 (min 4 99)) ∧
      (if "imagen-3" = "imagen-4-ultra" then (1 : Int) else max 1 (min 4 99)) ≤ 4 :=
  handler_sample_clamped "k" "x" "imagen-3" 99 stubTimeout (by decide) (by decide)

/-- C6: every aspect_ratio value outside the accepted set is replaced by the
default 1:1 and every person_generation value outside the accepted set is
replaced by the default allow_adult in the single outbound payload; the job
is not rejected, as witnessed by the call being made. -/
theorem handler_enum_defaults (k p : String) (ja jg : Json)
    (tr : HttpRequest → HttpOutcome)
    (hk : k ≠ "") (hp : p ≠ "")
    (ha : aspectAllowed ja = false) (hg : personAllowed jg = false) :
    ∃ req,
      (handler (some k) tr (.obj [("input", .obj [("prompt", .str p),
        ("aspect_ratio", ja), ("person_generation", jg)])])).2 = [req] ∧
      reqParam req "aspectRatio" = some (.str "1:1") ∧
      reqParam req "personGeneration" = some (.str "allow_adult") := by
  have hkey : keyTruthy (some k) = true := by simp [keyTruthy, hk]
  have hbody : handlerBody (some k) tr
      (.obj [("input", .obj [("prompt", .str p), ("aspect_ratio", ja),
        ("person_generation", jg)])]) =
      generate_image (some k) tr (.str p) (.str "imagen-3") (.num 1)
        (.str "1:1") (.str "") (.str "allow_adult") := by
    simp [handlerBody, exBind, pyGet, lookupKey, List.find?, Json.truthy, hp,
          sampleStep, isUltra, clampSampleCount, normAspect, normPerson, ha, hg]
  obtain ⟨r, hr⟩ := generate_image_log (some k) tr (.str p) (.str "imagen-3")
      (.num 1) (.str "1:1") (.str "") (.str "allow_adult")
      "imagen-3.0-generate-002" hkey rfl
  refine ⟨builtRequest (some k) "imagen-3.0-generate-002" (.str p) (.num 1)
      (.str "1:1") (.str "allow_adult") (.str ""), ?_, ?_, ?_⟩
  · simp [handler, hbody, hr]
  · exact reqParam_aspect _ _ _ _ _ _ _
  · exact reqParam_person _ _ _ _ _ _ _

/-- C6 witness: the enum default theorem applied at a concrete job with a
numeric aspect_ratio and an unrecognized person_generation string. -/
theorem handler_enum_defaults_case :
    ∃ req,
      (handler (some "k") stubTimeout (.obj [("input", .obj [("prompt", .str "x"),
        ("aspect_ratio", .num 7), ("person_generation", .str "everyone")])])).2 = [req] ∧
      reqParam req "aspectRatio" = some (.str "1:1") ∧
      reqParam req "personGeneration" = some (.str "allow_adult") :=
  handler_enum_defaults "k" "x" (.num 7) (.str "everyone") stubTimeout
    (by decide) (by decide) rfl rfl

/-- C7: for every upstream response with a non-2xx status, the result is the
UpstreamError kind carrying the status code and the raw body text, and the
200-path parsing is never applied to that body (the result does not depend
on the decoded body at all, which the theorem quantifies over). -/
theorem handler_upstream_status (k p text : String) (status : Nat)
    (body : Except String Json)
    (hk : k ≠ "") (hp : p ≠ "") (hstatus : status < 200 ∨ 300 ≤ status) :
    (handler (some k) (stubResponse status text body)
       (.obj [("input", .obj [("prompt", .str p)])])).1 =
      .errorDetails ("API returned status " ++ toString status) text := by
  have hs : status ≠ 200 := by omega
  simp [handler, handlerBody, exBind, pyGet, lookupKey, List.find?, Json.truthy,
        hp, hk, generate_image, keyTruthy, sampleStep, isUltra, clampSampleCount,
        imagenLookup, IMAGEN_MODELS, normAspect, normPerson, stubResponse, hs]

/-- C7 witness: the upstream status theorem applied at the stubbed status
500 with body text boom. -/
theorem handler_upstream_status_case :
    (handler (some "k") (stubResponse 500 "boom" (.ok .null))
       (.obj [("input", .obj [("prompt", .str "x")])])).1 =
      .errorDetails "API returned status 500" "boom" :=
  handler_upstream_status "k" "x" "boom" 500 (.ok .null)
    (by decide) (by decide) (Or.inr (by omega))

/-- C8 counterexample: a 200 body whose predictions list holds the number 5
matches no known base64 shape, yet the result is the UnexpectedError
catch-all (the membership test raises a TypeError on a number) and not an
UnparseableResponse carrying the raw payload, refuting the claim as stated
for that response. -/
theorem handler_unexpected_prediction :
    (handler (some "k") (stub200 (.obj [("predictions", .arr [.num 5])]))
       (.obj [("input", .obj [("prompt", .str "x")])])).1 =
      .errorOnly "Unexpected error: TypeError: argument is not iterable" ∧
    GResult.isUnparseable
      (handler (some "k") (stub200 (.obj [("predictions", .arr [.num 5])]))
         (.obj [("input", .obj [("prompt", .str "x")])])).1 = false :=
  ⟨rfl, rfl⟩

/-- C8 amended: for every 200 response whose body is a JSON object in which
either the predictions value is missing or falsy (no predictions key, empty
list, and similar), or the predictions value is a list each of whose
elements is a container matching no known base64 shape, the result is an
UnparseableResponse kind error (text No images generated or Could not
extract images from response) carrying the raw upstream payload; a
non-container prediction such as a number instead yields the UnexpectedError
catch-all without the payload, as the counterexample shows. -/
theorem handler_unparseable (k p : String) (kvs : List (String × Json))
    (hk : k ≠ "") (hp : p ≠ "")
    (h : (((lookupKey kvs "predictions").getD (.arr [])).truthy = false) ∨
         (∃ ps, lookupKey kvs "predictions" = some (.arr ps) ∧ ps ≠ [] ∧
            ∀ q ∈ ps, processPrediction q = .ok [])) :
    ∃ m, (m = "No images generated" ∨ m = "Could not extract images from response") ∧
      (handler (some k) (stub200 (.obj kvs))
         (.obj [("input", .obj [("prompt", .str p)])])).1 =
        .errorResponse m (.obj kvs) := by
  rw [handler_stub200 k p (.obj kvs) hk hp]
  rcases h with h | ⟨ps, hps, hne, hall⟩
  · refine ⟨"No images generated", Or.inl rfl, ?_⟩
    simp [parse200, pyGet, h]
  · refine ⟨"Could not extract images from response", Or.inr rfl, ?_⟩
    have hc := collectImages_all_empty ps hall
    cases ps with
    | nil => exact absurd rfl hne
    | cons q qs =>
      simp [parse200, pyGet, hps, Json.truthy, pyIter, hc]

/-- C8 witness: the amended theorem applied at a concrete 200 body with no
predictions key. -/
theorem handler_unparseable_case :
    ∃ m, (m = "No images generated" ∨ m = "Could not extract images from response") ∧
      (handler (some "k") (stub200 (.obj [("other", .num 1)]))
         (.obj [("input", .obj [("prompt", .str "x")])])).1 =
        .errorResponse m (.obj [("other", .num 1)]) :=
  handler_unparseable "k" "x" [("other", .num 1)] (by decide) (by decide) (Or.inl rfl)

/-- C9 counterexample: a prediction whose direct bytesBase64Encoded field is
the empty string while its image wrapper holds the non-empty string XYZ is
accepted through the direct field: the result is a success whose single
image is the empty string, refuting the claim that only a shape yielding a
non-empty base64 string is accepted. -/
theorem extraction_accepts_empty :
    (handler (some "k") (stub200 (.obj [("predictions", .arr [.obj
        [("bytesBase64Encoded", .str ""), ("image", .str "XYZ")]])]))
       (.obj [("input", .obj [("prompt", .str "x")])])).1 =
      .success (.str "x") (.str "") "imagen-3.0-generate-002" (.str "1:1")
        [.str ""] 1 := rfl

/-- C9 amended: for every prediction object, extraction tries the known
shapes in a fixed priority order, the direct bytesBase64Encoded field first
and then the image wrapper (a dict holding bytesBase64Encoded, else a plain
string), and accepts the first shape structurally present, regardless of
whether the extracted string is empty. -/
theorem extraction_priority (kvs : List (String × Json)) :
    processPrediction (.obj kvs) = .ok (
      match lookupKey kvs "bytesBase64Encoded" with
      | some v => [v]
      | none =>
        match lookupKey kvs "image" with
        | some (.obj kvs2) =>
          (match lookupKey kvs2 "bytesBase64Encoded" with
           | some w => [w]
           | none => [])
        | some (.str s) => [.str s]
        | _ => []) := by
  cases hb : lookupKey kvs "bytesBase64Encoded" with
  | some v => simp [processPrediction, pyInStr, pySubscript, any_eq_lookup_isSome, hb]
  | none =>
    cases hi : lookupKey kvs "image" with
    | none => simp [processPrediction, pyInStr, pySubscript, any_eq_lookup_isSome, hb, hi]
    | some img =>
      cases img with
      | obj kvs2 =>
        cases h2 : lookupKey kvs2 "bytesBase64Encoded" <;>
          simp [processPrediction, pyInStr, pySubscript, any_eq_lookup_isSome,
                hb, hi, h2]
      | null =>
        simp [processPrediction, pyInStr, pySubscript, any_eq_lookup_isSome, hb, hi]
      | bool b =>
        simp [processPrediction, pyInStr, pySubscript, any_eq_lookup_isSome, hb, hi]
      | num x =>
        simp [processPrediction, pyInStr, pySubscript, any_eq_lookup_isSome, hb, hi]
      | str s =>
        simp [processPrediction, pyInStr, pySubscript, any_eq_lookup_isSome, hb, hi]
      | arr xs =>
        simp [processPrediction, pyInStr, pySubscript, any_eq_lookup_isSome, hb, hi]

/-- C10: for every model string not among the three known names, the single
outbound call targets the imagen-3 upstream model name in its URL, while
sample_count is still clamped into the interval from 1 to 4 rather than
forced to 1, because the force-to-1 rule compares only against the exact
string imagen-4-ultra. -/
theorem handler_unknown_model (k p m : String) (n : Int)
    (tr : HttpRequest → HttpOutcome)
    (hk : k ≠ "") (hp : p ≠ "")
    (hm : m ∉ ["imagen-4-ultra", "imagen-4", "imagen-3"]) :
    ∃ req,
      (handler (some k) tr (.obj [("input", .obj [("prompt", .str p),
        ("model", .str m), ("sample_count", .num n)])])).2 = [req] ∧
      req.url =
        "https://generativelanguage.googleapis.com/v1beta/models/imagen-3.0-generate-002:predict" ∧
      reqParam req "sampleCount" = some (.num (max 1 (min 4 n))) := by
  have h1 : m ≠ "imagen-4-ultra" := by intro h; exact hm (by simp [h])
  have h2 : m ≠ "imagen-4" := by intro h; exact hm (by simp [h])
  have h3 : m ≠ "imagen-3" := by intro h; exact hm (by simp [h])
  have hkey : keyTruthy (some k) = true := by simp [keyTruthy, hk]
  have e1 : ("imagen-4-ultra" == m) = false := by
    rw [beq_eq_false_iff_ne]; exact Ne.symm h1
  have e2 : ("imagen-4" == m) = false := by
    rw [beq_eq_false_iff_ne]; exact Ne.symm h2
  have e3 : ("imagen-3" == m) = false := by
    rw [beq_eq_false_iff_ne]; exact Ne.symm h3
  have hlook : imagenLookup (.str m) = .ok "imagen-3.0-generate-002" := by
    simp [imagenLookup, IMAGEN_MODELS, List.find?, e1, e2, e3]
  have hbody : handlerBody (some k) tr
      (.obj [("input", .obj [("prompt", .str p), ("model", .str m),
        ("sample_count", .num n)])]) =
      generate_image (some k) tr (.str p) (.str m) (.num (max 1 (min 4 n)))
        (.str "1:1") (.str "") (.str "allow_adult") := by
    simp [handlerBody, exBind, pyGet, lookupKey, List.find?, Json.truthy, hp,
          sampleStep, isUltra, clampSampleCount, h1, normAspect, normPerson]
  obtain ⟨r, hr⟩ := generate_image_log (some k) tr (.str p) (.str m)
      (.num (max 1 (min 4 n))) (.str "1:1") (.str "") (.str "allow_adult")
      "imagen-3.0-generate-002" hkey hlook
  refine ⟨builtRequest (some k) "imagen-3.0-generate-002" (.str p)
      (.num (max 1 (min 4 n))) (.str "1:1") (.str "allow_adult") (.str ""),
      ?_, ?_, ?_⟩
  · simp [handler, hbody, hr]
  · rfl
  · exact reqParam_sampleCount _ _ _ _ _ _ _

/-- C10 witness: the unknown model theorem applied at a concrete job with
model gpt-4 and sample count 7, giving the imagen-3 URL and the clamped
value 4. -/
theorem handler_unknown_model_case :
    ∃ req,
      (handler (some "k") stubTimeout (.obj [("input", .obj [("prompt", .str "x"),
        ("model", .str "gpt-4"), ("sample_count", .num 7)])])).2 = [req] ∧
      req.url =
        "https://generativelanguage.googleapis.com/v1beta/models/imagen-3.0-generate-002:predict" ∧
      reqParam req "sampleCount" = some (.num (max 1 (min 4 7))) :=
  handler_unknown_model "k" "x" "gpt-4" 7 stubTimeout (by decide) (by decide) (by decide)

end RunpodGemini
